import Mathlib

/-!
Shallow embedding of the request-handling core of `src/server.py`
(the mcp-askllm server): input validation, prompt sanitization,
per-client rate limiting, configuration loading and the `ask` tool,
together with proofs of the specification claims about them.

Python strings are modelled as Lean `String` (sequences of Unicode
code points, matching Python `len` / indexing semantics on `str`).
Python `time.time()` clock values are modelled as rationals `ℚ`.
-/

namespace AskLLM

/-- Characters matched by the character class `[a-zA-Z0-9_-]` of the
regular expression in `validate_llm_name` (server.py line 60). -/
def isNameChar (c : Char) : Bool :=
  decide (97 ≤ c.toNat ∧ c.toNat ≤ 122) ||
  decide (65 ≤ c.toNat ∧ c.toNat ≤ 90) ||
  decide (48 ≤ c.toNat ∧ c.toNat ≤ 57) ||
  decide (c = '_') || decide (c = '-')

/-- Characters removed by `re.sub` in `sanitize_prompt` (server.py line 65):
the class `[\x00-\x08\x0B\x0C\x0E-\x1F\x7F]` (control characters other
than newline, tab and carriage return). -/
def isStrippedCtrl (c : Char) : Bool :=
  decide (c.toNat ≤ 8) || decide (c.toNat = 11) || decide (c.toNat = 12) ||
  decide (14 ≤ c.toNat ∧ c.toNat ≤ 31) || decide (c.toNat = 127)

/-- The Unicode whitespace set stripped by Python `str.strip()` with no
argument: U+0009..U+000D, U+001C..U+001F, space, U+0085, U+00A0, U+1680,
U+2000..U+200A, U+2028, U+2029, U+202F, U+205F, U+3000. -/
def isPyWs (c : Char) : Bool :=
  decide (9 ≤ c.toNat ∧ c.toNat ≤ 13) ||
  decide (28 ≤ c.toNat ∧ c.toNat ≤ 31) ||
  decide (c.toNat = 32) || decide (c.toNat = 133) || decide (c.toNat = 160) ||
  decide (c.toNat = 5760) ||
  decide (8192 ≤ c.toNat ∧ c.toNat ≤ 8202) ||
  decide (c.toNat = 8232) || decide (c.toNat = 8233) ||
  decide (c.toNat = 8239) || decide (c.toNat = 8287) ||
  decide (c.toNat = 12288)

/-- Python `str.strip()` on a list of characters: drop the leading run of
whitespace, then the trailing run of whitespace. -/
def stripList (l : List Char) : List Char :=
  ((l.dropWhile isPyWs).reverse.dropWhile isPyWs).reverse

/-- `sanitize_prompt` (server.py lines 62-66): remove the control
characters of `isStrippedCtrl` with `re.sub`, then `str.strip()`. -/
def sanitize_prompt (p : String) : String :=
  String.mk (stripList ((p.toList).filter (fun c => !(isStrippedCtrl c))))

/-- `validate_llm_name` (server.py lines 58-60):
`bool(re.match(r'^[a-zA-Z0-9_-]+$', llm))`.  Python `re.match` anchors at
the start, and without `re.MULTILINE` the `$` anchor matches at the end of
the string and also just before a single newline that ends the string.
Hence the regex accepts exactly: a nonempty string of `isNameChar`
characters, or such a string followed by one final newline. -/
def validate_llm_name (s : String) : Bool :=
  (decide (s.toList ≠ []) && s.toList.all isNameChar) ||
  (decide (s.toList.getLast? = some ('\n')) &&
    decide (s.toList.dropLast ≠ []) && s.toList.dropLast.all isNameChar)

/-- `MAX_PROMPT_LENGTH` (server.py line 24). -/
def MAX_PROMPT_LENGTH : Nat := 100000

/-- `CONFIG_ENV_VAR` (server.py line 25). -/
def CONFIG_ENV_VAR : String := "ASKLLM_CONFIG"

/-- `RATE_LIMIT_REQUESTS` (server.py line 198). -/
def RATE_LIMIT_REQUESTS : Nat := 10

/-- `RATE_LIMIT_WINDOW` (server.py line 199). -/
def RATE_LIMIT_WINDOW : ℚ := 60

/-- `LLMConfig` (server.py lines 48-55). -/
structure LLMConfig where
  model : String
  api_key : String
  name : String
  max_tokens : Option Nat := none
  temperature : Option ℚ := none
deriving DecidableEq

/-- The Python exceptions that can cross the `ask` tool's handlers
(server.py lines 34-45, 69-83, 281-286), each carrying its `str(e)` text.
`ConnectionError`, `TimeoutError`, `ValueError`, `IndexError` and
`AttributeError` are builtins; `LLMConfigurationError` and
`LLMResponseError` are the custom `LLMError` subclasses; `otherError`
stands for any other `Exception`. -/
inductive PyExc where
  | connectionError (msg : String)
  | timeoutError (msg : String)
  | valueError (msg : String)
  | llmConfigurationError (msg : String)
  | llmResponseError (msg : String)
  | indexError (msg : String)
  | attributeError (msg : String)
  | otherError (msg : String)
deriving DecidableEq

/-- `handle_llm_error` (server.py lines 69-83): the `isinstance` chain
mapping an exception to a user-facing string. -/
def handle_llm_error : PyExc → String
  | PyExc.connectionError _ => "Error: Unable to connect to LLM service"
  | PyExc.timeoutError _ => "Error: LLM request timed out"
  | PyExc.valueError _ => "Error: Invalid request parameters"
  | PyExc.llmResponseError m => "Error: " ++ m
  | PyExc.llmConfigurationError m => "Error: " ++ m
  | _ => "Error: Unexpected error occurred"

/-- The two `except` clauses at the end of `ask` (server.py lines 281-286):
`ValueError`, `LLMConfigurationError` and `LLMResponseError` are caught
first and produce `"Error: " + str(e)`; every other exception falls to
`handle_llm_error`. -/
def ask_catch : PyExc → String
  | PyExc.valueError m => "Error: " ++ m
  | PyExc.llmConfigurationError m => "Error: " ++ m
  | PyExc.llmResponseError m => "Error: " ++ m
  | e => handle_llm_error e

/-- The downstream `litellm.completion` collaborator: given the model,
the api key and the messages list (role/content pairs), it either raises
an exception or returns a response, modelled as the list of
`choices[i].message.content` fields (`none` for a `None` content). -/
abbrev Provider : Type :=
  String → String → List (String × String) → Except PyExc (List (Option String))

/-- One recorded invocation of the provider: model, api key, messages. -/
abbrev ProviderCall : Type := String × String × List (String × String)

/-- The response handling in `ask` (server.py lines 269-279):
`response.choices[0].message.content`; an empty `choices` raises
`IndexError`, which the inner handler converts to
`LLMResponseError("Invalid response structure from LLM")`; a falsy
content raises `LLMResponseError("Empty response content")`. -/
def extract_content : List (Option String) → Except PyExc String
  | [] => Except.error (PyExc.llmResponseError ("Invalid response structure from LLM"))
  | none :: _ => Except.error (PyExc.llmResponseError ("Empty response content"))
  | some s :: _ =>
    if s = "" then Except.error (PyExc.llmResponseError ("Empty response content"))
    else Except.ok s

/-- The per-client timestamp map `request_counts` (server.py line 197),
as a total function defaulting to the empty list. -/
abbrev RateState : Type := String → List ℚ

/-- The initial `request_counts = ` empty-dict state. -/
def emptyRate : RateState := fun _ => []

/-- The pruning comprehension inside `check_rate_limit` (server.py
lines 210-213): keep the timestamps with `current_time - req_time <
RATE_LIMIT_WINDOW`. -/
def prune (now : ℚ) (l : List ℚ) : List ℚ :=
  l.filter (fun t => decide (now - t < RATE_LIMIT_WINDOW))

/-- `check_rate_limit` (server.py lines 201-221): prune the client's
window (the pruned list is stored back even on rejection), reject when
`RATE_LIMIT_REQUESTS` timestamps remain, otherwise append `now` and
admit. -/
def check_rate_limit (st : RateState) (client : String) (now : ℚ) :
    Bool × RateState :=
  if RATE_LIMIT_REQUESTS ≤ (prune now (st client)).length then
    (false, fun k => if k = client then prune now (st client) else st k)
  else
    (true, fun k => if k = client then prune now (st client) ++ [now] else st k)

/-- Iterate `check_rate_limit` for one client over a list of clock
values, collecting the returned booleans and the final state. -/
def runCalls (client : String) : RateState → List ℚ → List Bool × RateState
  | st, [] => ([], st)
  | st, t :: ts =>
    ((check_rate_limit st client t).1 :: (runCalls client (check_rate_limit st client t).2 ts).1,
      (runCalls client (check_rate_limit st client t).2 ts).2)

/-- The body of the `try` block of `ask` (server.py lines 236-279), with
the validation `raise`s and the downstream call turned into `Except`,
plus the list of provider invocations performed. -/
def askBody (cfgs : String → Option LLMConfig) (provider : Provider)
    (llm prompt : String) : Except PyExc String × List ProviderCall :=
  if llm = "" then
    (Except.error (PyExc.valueError ("Invalid LLM parameter provided")), [])
  else if validate_llm_name llm = false then
    (Except.error (PyExc.valueError ("LLM name contains invalid characters")), [])
  else if prompt = "" then
    (Except.error (PyExc.valueError ("Invalid prompt parameter provided")), [])
  else if MAX_PROMPT_LENGTH < prompt.length then
    (Except.error (PyExc.valueError ("Prompt too long: " ++ toString prompt.length ++
      " characters (max: " ++ toString MAX_PROMPT_LENGTH ++ ")")), [])
  else if sanitize_prompt prompt = "" then
    (Except.error (PyExc.valueError ("Prompt is empty after sanitization")), [])
  else
    match cfgs llm with
    | none =>
      (Except.error (PyExc.llmConfigurationError ("LLM \x27" ++ llm ++
        "\x27 not found in configuration. Check " ++ CONFIG_ENV_VAR ++
        " and specific LLM environment variables.")), [])
    | some cfg =>
      match provider cfg.model cfg.api_key ([("user", sanitize_prompt prompt)]) with
      | Except.error e =>
        (Except.error e, [(cfg.model, cfg.api_key, [("user", sanitize_prompt prompt)])])
      | Except.ok choices =>
        (extract_content choices, [(cfg.model, cfg.api_key, [("user", sanitize_prompt prompt)])])

/-- The `ask` tool (server.py lines 227-286): rate-limit check first,
then the validated body, with the two `except` clauses applied to any
raised exception.  Returns the result string, the rate-limiter state
after the call, and the provider invocations performed. -/
def ask (cfgs : String → Option LLMConfig) (provider : Provider)
    (st : RateState) (now : ℚ) (llm prompt : String) :
    String × RateState × List ProviderCall :=
  if (check_rate_limit st ("default") now).1 = true then
    match (askBody cfgs provider llm prompt).1 with
    | Except.ok s =>
      (s, (check_rate_limit st ("default") now).2, (askBody cfgs provider llm prompt).2)
    | Except.error e =>
      (ask_catch e, (check_rate_limit st ("default") now).2, (askBody cfgs provider llm prompt).2)
  else
    ("Error: Rate limit exceeded. Please try again later.",
      (check_rate_limit st ("default") now).2, [])

/-- The process environment: `os.environ.get`, `none` for an unset
variable. -/
def Env : Type := String → Option String

/-- The keyring collaborator: `keyring.get_password(service, username)`.
`none` covers an absent key, a keyring error (logged and swallowed) and
the keyring package being unavailable — in all three cases
`get_secure_api_key` falls through to the environment variable. -/
def Secure : Type := String → String → Option String

/-- Python `str.upper()` (ASCII range; the identifiers involved here are
ASCII). -/
def pyUpper (s : String) : String := String.mk (s.toList.map Char.toUpper)

/-- Python `str.lower()` (ASCII range). -/
def pyLower (s : String) : String := String.mk (s.toList.map Char.toLower)

/-- Python `str.strip()`. -/
def pyStrip (s : String) : String := String.mk (stripList s.toList)

/-- Python `str.split(sep)` for a one-character separator: split on every
occurrence, never collapsing, so `""` splits to `[""]`. -/
def splitChar (c : Char) : List Char → List (List Char)
  | [] => [[]]
  | x :: xs =>
    match splitChar c xs with
    | [] => [[]]
    | g :: gs => if x = c then [] :: g :: gs else (x :: g) :: gs

/-- Python `s.split(sep)` for a one-character separator, on strings. -/
def pySplit (s : String) (c : Char) : List String :=
  (splitChar c s.toList).map String.mk

/-- Python truthiness of an optional string: `None` and `""` are falsy. -/
def truthy : Option String → Bool
  | some s => decide (s ≠ "")
  | none => false

/-- `get_secure_api_key` (server.py lines 121-137): a truthy keyring hit
wins, otherwise fall back to the `ASKLLM_<USERNAME_UPPER>_APIKEY`
environment variable (whose value is returned even when empty). -/
def get_secure_api_key (secure : Secure) (env : Env)
    (service username : String) : Option String :=
  match secure service username with
  | some k =>
    if k = "" then env ("ASKLLM_" ++ pyUpper username ++ "_APIKEY") else some k
  | none => env ("ASKLLM_" ++ pyUpper username ++ "_APIKEY")

/-- The normalised backend key `llm_name_upper` (server.py line 162):
`piece.strip().upper()`. -/
def backendName (piece : String) : String := pyUpper (pyStrip piece)

/-- `model_env_var` (server.py line 166). -/
def modelVar (n : String) : String := "ASKLLM_" ++ n ++ "_MODEL"

/-- `display_name_env_var` (server.py line 167). -/
def nameVar (n : String) : String := "ASKLLM_" ++ n ++ "_NAME"

/-- `display_name` (server.py line 170): the `ASKLLM_<KEY>_NAME` variable
with the lowercased key as default. -/
def displayOf (env : Env) (n : String) : String :=
  (env (nameVar n)).getD (pyLower n)

/-- The api key resolved for a backend key (server.py line 173):
`get_secure_api_key("askllm", llm_name_upper.lower())`. -/
def resolvedKey (env : Env) (secure : Secure) (n : String) : Option String :=
  get_secure_api_key secure env ("askllm") (pyLower n)

/-- One iteration of the configuration loop (server.py lines 161-188):
skip a blank key; store a config under its display name only when both
the model variable and the resolved api key are truthy, otherwise leave
the registry unchanged. -/
def loadStep (env : Env) (secure : Secure)
    (acc : String → Option LLMConfig) (piece : String) :
    String → Option LLMConfig :=
  if backendName piece = "" then acc
  else
    match env (modelVar (backendName piece)), resolvedKey env secure (backendName piece) with
    | some m, some k =>
      if m = "" ∨ k = "" then acc
      else fun q =>
        if q = displayOf env (backendName piece) then
          some (LLMConfig.mk m k (displayOf env (backendName piece)) none none)
        else acc q
    | some _, none => acc
    | none, _ => acc

/-- The comma-separated pieces of the `ASKLLM_CONFIG` value
(server.py line 161). -/
def configPieces (env : Env) : List String :=
  pySplit ((env CONFIG_ENV_VAR).getD ("")) (',')

/-- `load_llm_configurations` (server.py lines 154-192): an unset or
empty `ASKLLM_CONFIG` yields an empty registry; otherwise fold the
configuration loop over the comma-separated keys. -/
def load_llm_configurations (env : Env) (secure : Secure) :
    String → Option LLMConfig :=
  if ((env CONFIG_ENV_VAR).getD ("")) = "" then fun _ => none
  else (configPieces env).foldl (loadStep env secure) (fun _ => none)

/-! ### List lemmas for stripping -/

theorem dropWhile_head_not {α : Type} (p : α → Bool) :
    ∀ (l : List α) (c : α), (l.dropWhile p).head? = some c → p c = false := by
  intro l
  induction l with
  | nil => intro c h; simp [List.dropWhile] at h
  | cons a t ih =>
    intro c h
    by_cases hp : p a
    · rw [List.dropWhile_cons_of_pos hp] at h
      exact ih c h
    · rw [List.dropWhile_cons_of_neg hp] at h
      simp at h
      rw [← h]
      exact Bool.of_not_eq_true hp

theorem dropWhile_dropWhile {α : Type} (p : α → Bool) (l : List α) :
    (l.dropWhile p).dropWhile p = l.dropWhile p := by
  cases h : l.dropWhile p with
  | nil => simp
  | cons c t =>
    have hc : p c = false := dropWhile_head_not p l c (by rw [h]; rfl)
    rw [List.dropWhile_cons_of_neg (by simp [hc])]

theorem dropWhile_eq_strip_append (l : List Char) :
    l.dropWhile isPyWs = stripList l ++
      ((l.dropWhile isPyWs).reverse.takeWhile isPyWs).reverse := by
  have e1 : (l.dropWhile isPyWs).reverse =
      (l.dropWhile isPyWs).reverse.takeWhile isPyWs ++
      (l.dropWhile isPyWs).reverse.dropWhile isPyWs :=
    (List.takeWhile_append_dropWhile isPyWs _).symm
  have e2 := congrArg List.reverse e1
  rw [List.reverse_reverse, List.reverse_append] at e2
  exact e2

theorem stripList_decomp (l : List Char) :
    l = l.takeWhile isPyWs ++ stripList l ++
      ((l.dropWhile isPyWs).reverse.takeWhile isPyWs).reverse := by
  have h1 : l = l.takeWhile isPyWs ++ l.dropWhile isPyWs :=
    (List.takeWhile_append_dropWhile isPyWs l).symm
  calc l = l.takeWhile isPyWs ++ l.dropWhile isPyWs := h1
    _ = l.takeWhile isPyWs ++ (stripList l ++
          ((l.dropWhile isPyWs).reverse.takeWhile isPyWs).reverse) := by
        rw [← dropWhile_eq_strip_append]
    _ = l.takeWhile isPyWs ++ stripList l ++
          ((l.dropWhile isPyWs).reverse.takeWhile isPyWs).reverse :=
        (List.append_assoc _ _ _).symm

theorem mem_stripList {l : List Char} {a : Char} (h : a ∈ stripList l) : a ∈ l := by
  unfold stripList at h
  rw [List.mem_reverse] at h
  have h1 : a ∈ (l.dropWhile isPyWs).reverse := (List.dropWhile_sublist _).subset h
  rw [List.mem_reverse] at h1
  exact (List.dropWhile_sublist _).subset h1

theorem stripList_getLast_not_ws (l : List Char) (c : Char)
    (h : (stripList l).getLast? = some c) : isPyWs c = false := by
  unfold stripList at h
  rw [List.getLast?_reverse] at h
  exact dropWhile_head_not isPyWs _ c h

theorem stripList_head_not_ws (l : List Char) (c : Char)
    (h : (stripList l).head? = some c) : isPyWs c = false := by
  have h2 := dropWhile_eq_strip_append l
  have hdrop : (l.dropWhile isPyWs).head? = some c := by
    rw [h2]
    cases hs : stripList l with
    | nil => rw [hs] at h; simp at h
    | cons x t =>
      rw [hs] at h
      simp only [List.head?_cons, Option.some.injEq] at h
      simp [h]
  exact dropWhile_head_not isPyWs l c hdrop

theorem stripList_dropWhile_self (l : List Char) :
    (stripList l).dropWhile isPyWs = stripList l := by
  cases h : stripList l with
  | nil => simp
  | cons c t =>
    have hc : isPyWs c = false := stripList_head_not_ws l c (by rw [h]; rfl)
    rw [List.dropWhile_cons_of_neg (by simp [hc])]

theorem stripList_idem (l : List Char) :
    stripList (stripList l) = stripList l := by
  conv_lhs => rw [stripList, stripList_dropWhile_self l]
  have h2 : (stripList l).reverse.dropWhile isPyWs = (stripList l).reverse := by
    unfold stripList
    rw [List.reverse_reverse]
    exact dropWhile_dropWhile isPyWs _
  rw [h2, List.reverse_reverse]

theorem string_eq_of_toList {s t : String} (h : s.toList = t.toList) : s = t := by
  cases s; cases t
  exact congrArg String.mk h

theorem filter_stripList_filter (l : List Char) :
    (stripList (l.filter (fun c => !(isStrippedCtrl c)))).filter
        (fun c => !(isStrippedCtrl c)) =
      stripList (l.filter (fun c => !(isStrippedCtrl c))) := by
  apply List.filter_eq_self.mpr
  intro a ha
  have hmem : a ∈ l.filter (fun c => !(isStrippedCtrl c)) := mem_stripList ha
  have h2 := List.of_mem_filter hmem
  exact h2

/-- Claim C5: `sanitize_prompt` removes exactly the control code points
0x00-0x08, 0x0B, 0x0C, 0x0E-0x1F and 0x7F (newline and tab are not in the
removed class), then trims leading and trailing whitespace, and nothing
else: the control-filtered character list decomposes as a whitespace
prefix, the sanitized result, and a whitespace suffix, and the result
neither starts nor ends with whitespace; moreover the function is
idempotent: `sanitize_prompt (sanitize_prompt p) = sanitize_prompt p`
for every string `p`. -/
theorem C5_sanitize_prompt (p : String) :
    sanitize_prompt (sanitize_prompt p) = sanitize_prompt p ∧
    isStrippedCtrl ('\n') = false ∧ isStrippedCtrl ('\t') = false ∧
    (∃ pre suf,
      (p.toList).filter (fun c => !(isStrippedCtrl c)) =
        pre ++ (sanitize_prompt p).toList ++ suf ∧
      pre.all isPyWs = true ∧ suf.all isPyWs = true) ∧
    (sanitize_prompt p).toList.head?.all (fun c => !(isPyWs c)) = true ∧
    (sanitize_prompt p).toList.getLast?.all (fun c => !(isPyWs c)) = true := by
  have htl : (sanitize_prompt p).toList =
      stripList ((p.toList).filter (fun c => !(isStrippedCtrl c))) := rfl
  refine ⟨?_, by decide, by decide, ?_, ?_, ?_⟩
  · apply string_eq_of_toList
    show stripList (((sanitize_prompt p).toList).filter (fun c => !(isStrippedCtrl c))) =
      stripList ((p.toList).filter (fun c => !(isStrippedCtrl c)))
    rw [htl, filter_stripList_filter, stripList_idem]
  · refine ⟨((p.toList).filter (fun c => !(isStrippedCtrl c))).takeWhile isPyWs,
      ((((p.toList).filter (fun c => !(isStrippedCtrl c))).dropWhile isPyWs).reverse.takeWhile isPyWs).reverse,
      ?_, ?_, ?_⟩
    · rw [htl]; exact stripList_decomp _
    · exact List.all_eq_true.mpr (fun x hx => List.mem_takeWhile_imp hx)
    · rw [List.all_reverse]
      exact List.all_eq_true.mpr (fun x hx => List.mem_takeWhile_imp hx)
  · rw [htl]
    cases h : (stripList ((p.toList).filter (fun c => !(isStrippedCtrl c)))).head? with
    | none => rfl
    | some c => simp [Option.all, stripList_head_not_ws _ c h]
  · rw [htl]
    cases h : (stripList ((p.toList).filter (fun c => !(isStrippedCtrl c)))).getLast? with
    | none => rfl
    | some c => simp [Option.all, stripList_getLast_not_ws _ c h]

/-! ### Rate limiter lemmas -/

theorem prune_length_add_expired (now : ℚ) (l : List ℚ) :
    (prune now l).length +
      (l.filter (fun t => decide (RATE_LIMIT_WINDOW ≤ now - t))).length = l.length := by
  induction l with
  | nil => rfl
  | cons a t ih =>
    by_cases h : now - a < RATE_LIMIT_WINDOW
    · have h2 : ¬ RATE_LIMIT_WINDOW ≤ now - a := not_le.mpr h
      unfold prune at *
      simp [List.filter_cons, h, h2]
      omega
    · have h2 : RATE_LIMIT_WINDOW ≤ now - a := not_lt.mp h
      unfold prune at *
      simp [List.filter_cons, h, h2]
      omega

theorem runCalls_fresh (client : String) :
    ∀ (ts : List ℚ) (st : RateState) (l : List ℚ),
      st client = l →
      l.length + ts.length ≤ RATE_LIMIT_REQUESTS →
      (∀ t ∈ ts, ∀ s ∈ l ++ ts, t - s < RATE_LIMIT_WINDOW) →
      (runCalls client st ts).1 = List.replicate ts.length true ∧
      (runCalls client st ts).2 client = l ++ ts ∧
      (∀ k, k ≠ client → (runCalls client st ts).2 k = st k) := by
  intro ts
  induction ts with
  | nil =>
    intro st l hst _ _
    refine ⟨rfl, ?_, fun k _ => rfl⟩
    simp [runCalls, hst]
  | cons t ts ih =>
    intro st l hst hlen hwin
    have hkeep : prune t (st client) = l := by
      rw [hst]
      apply List.filter_eq_self.mpr
      intro s hs
      exact decide_eq_true (hwin t (by simp) s (by simp [hs]))
    have hlt : ¬ RATE_LIMIT_REQUESTS ≤ (prune t (st client)).length := by
      rw [hkeep]
      simp only [List.length_cons] at hlen
      omega
    have hcheck : check_rate_limit st client t =
        (true, fun k => if k = client then prune t (st client) ++ [t] else st k) := by
      unfold check_rate_limit
      rw [if_neg hlt]
    have hst2 : ((fun k => if k = client then prune t (st client) ++ [t] else st k) :
        RateState) client = l ++ [t] := by simp [hkeep]
    have hlen2 : (l ++ [t]).length + ts.length ≤ RATE_LIMIT_REQUESTS := by
      simp only [List.length_append, List.length_cons] at hlen ⊢
      simp only [List.length_nil]
      omega
    have hwin2 : ∀ u ∈ ts, ∀ s ∈ (l ++ [t]) ++ ts, u - s < RATE_LIMIT_WINDOW := by
      intro u hu s hs
      apply hwin u (by simp [hu]) s
      simp only [List.mem_append, List.mem_cons, List.mem_singleton] at hs ⊢
      tauto
    obtain ⟨h1, h2, h3⟩ :=
      ih (fun k => if k = client then prune t (st client) ++ [t] else st k)
        (l ++ [t]) hst2 hlen2 hwin2
    refine ⟨?_, ?_, ?_⟩
    · simp only [runCalls, hcheck, h1, List.length_cons, List.replicate_succ]
    · simp only [runCalls, hcheck, h2]
      simp [List.append_assoc]
    · intro k hk
      simp only [runCalls, hcheck]
      rw [h3 k hk]
      simp [hk]

/-- States of `request_counts` reachable from the initial empty dict by
calls to `check_rate_limit`. -/
inductive RateReachable : RateState → Prop where
  | init : RateReachable emptyRate
  | step (st : RateState) (c : String) (t : ℚ) :
      RateReachable st → RateReachable ((check_rate_limit st c t).2)

theorem rate_reachable_bound :
    ∀ st, RateReachable st → ∀ k, (st k).length ≤ RATE_LIMIT_REQUESTS := by
  intro st h
  induction h with
  | init => intro k; simp [emptyRate, RATE_LIMIT_REQUESTS]
  | step st c t _ ih =>
    intro k
    have hfil : (prune t (st c)).length ≤ (st c).length :=
      List.length_filter_le _ _
    unfold check_rate_limit
    by_cases hge : RATE_LIMIT_REQUESTS ≤ (prune t (st c)).length
    · rw [if_pos hge]
      by_cases hk : k = c
      · simp only [hk, if_pos rfl]
        exact le_trans hfil (ih c)
      · simp only [if_neg hk]
        exact ih k
    · rw [if_neg hge]
      show (if k = c then prune t (st c) ++ [t] else st k).length ≤ RATE_LIMIT_REQUESTS
      by_cases hk : k = c
      · rw [if_pos hk]
        simp only [List.length_append, List.length_cons, List.length_nil,
          RATE_LIMIT_REQUESTS] at hge ⊢
        omega
      · rw [if_neg hk]
        exact ih k

/-- Claim C3: for every client key, `check_rate_limit` first drops the
timestamps outside the `RATE_LIMIT_WINDOW`-second window relative to
`now` (the code keeps exactly those with `now - t < RATE_LIMIT_WINDOW`),
then returns `false` without recording when `RATE_LIMIT_REQUESTS`
timestamps remain, and otherwise appends `now` and returns `true`;
consequently after exactly 10 admits within one window (non-decreasing
clocks are a special case of the pairwise-window hypothesis) the next
call in the same window returns `false` and records nothing, and pruning
at any time removes exactly the expired timestamps, so capacity is
restored by exactly their number. -/
theorem C3_check_rate_limit :
    (∀ (st : RateState) (c : String) (now : ℚ),
      check_rate_limit st c now =
        if RATE_LIMIT_REQUESTS ≤ (prune now (st c)).length then
          (false, fun k => if k = c then prune now (st c) else st k)
        else (true, fun k => if k = c then prune now (st c) ++ [now] else st k)) ∧
    (∀ (c : String) (ts : List ℚ) (t10 : ℚ),
      ts.length = RATE_LIMIT_REQUESTS →
      (∀ t ∈ ts, ∀ s ∈ ts, t - s < RATE_LIMIT_WINDOW) →
      (∀ s ∈ ts, t10 - s < RATE_LIMIT_WINDOW) →
      (runCalls c emptyRate ts).1 = List.replicate RATE_LIMIT_REQUESTS true ∧
      (runCalls c emptyRate ts).2 c = ts ∧
      (check_rate_limit ((runCalls c emptyRate ts).2) c t10).1 = false ∧
      (check_rate_limit ((runCalls c emptyRate ts).2) c t10).2 c = ts) ∧
    (∀ (l : List ℚ) (now : ℚ),
      (prune now l).length +
        (l.filter (fun t => decide (RATE_LIMIT_WINDOW ≤ now - t))).length = l.length) := by
  refine ⟨fun st c now => rfl, ?_, fun l now => prune_length_add_expired now l⟩
  intro c ts t10 hlen hall h10
  obtain ⟨h1, h2, h3⟩ := runCalls_fresh c ts emptyRate [] rfl
    (by simp [hlen])
    (by intro t ht s hs; exact hall t ht s (by simpa using hs))
  have h2x : (runCalls c emptyRate ts).2 c = ts := by simpa using h2
  have hpr : prune t10 ((runCalls c emptyRate ts).2 c) = ts := by
    rw [h2x]
    apply List.filter_eq_self.mpr
    intro s hs
    exact decide_eq_true (h10 s hs)
  have hge : RATE_LIMIT_REQUESTS ≤ (prune t10 ((runCalls c emptyRate ts).2 c)).length := by
    rw [hpr, hlen]
  refine ⟨by rw [h1, hlen], h2x, ?_, ?_⟩
  · unfold check_rate_limit
    rw [if_pos hge]
  · unfold check_rate_limit
    rw [if_pos hge]
    show (if c = c then prune t10 ((runCalls c emptyRate ts).2 c)
      else (runCalls c emptyRate ts).2 c) = ts
    rw [if_pos rfl, hpr]

/-- Witness for C3: ten calls at clocks 0..9 from the empty state are all
admitted, and an eleventh call at clock 30 (still inside every window) is
rejected and records nothing. -/
theorem C3_check_rate_limit_witness :
    ((([0, 1, 2, 3, 4, 5, 6, 7, 8, 9] : List ℚ).length = RATE_LIMIT_REQUESTS) ∧
      (∀ t ∈ ([0, 1, 2, 3, 4, 5, 6, 7, 8, 9] : List ℚ),
        ∀ s ∈ ([0, 1, 2, 3, 4, 5, 6, 7, 8, 9] : List ℚ), t - s < RATE_LIMIT_WINDOW) ∧
      (∀ s ∈ ([0, 1, 2, 3, 4, 5, 6, 7, 8, 9] : List ℚ), (30 : ℚ) - s < RATE_LIMIT_WINDOW)) ∧
    ((runCalls ("default") emptyRate ([0, 1, 2, 3, 4, 5, 6, 7, 8, 9] : List ℚ)).1 =
        List.replicate RATE_LIMIT_REQUESTS true ∧
      (runCalls ("default") emptyRate ([0, 1, 2, 3, 4, 5, 6, 7, 8, 9] : List ℚ)).2 ("default") =
        ([0, 1, 2, 3, 4, 5, 6, 7, 8, 9] : List ℚ) ∧
      (check_rate_limit ((runCalls ("default") emptyRate
        ([0, 1, 2, 3, 4, 5, 6, 7, 8, 9] : List ℚ)).2) ("default") 30).1 = false ∧
      (check_rate_limit ((runCalls ("default") emptyRate
        ([0, 1, 2, 3, 4, 5, 6, 7, 8, 9] : List ℚ)).2) ("default") 30).2 ("default") =
        ([0, 1, 2, 3, 4, 5, 6, 7, 8, 9] : List ℚ)) :=
  ⟨⟨by rfl, by norm_num [RATE_LIMIT_WINDOW, List.forall_mem_cons],
      by norm_num [RATE_LIMIT_WINDOW, List.forall_mem_cons]⟩,
    C3_check_rate_limit.2.1 ("default") ([0, 1, 2, 3, 4, 5, 6, 7, 8, 9] : List ℚ) 30
      (by rfl) (by norm_num [RATE_LIMIT_WINDOW, List.forall_mem_cons])
      (by norm_num [RATE_LIMIT_WINDOW, List.forall_mem_cons])⟩

/-- Claim C10: after any call to `check_rate_limit` on a state reachable
from the initial empty `request_counts`, the called client's stored list
has length at most `RATE_LIMIT_REQUESTS` and every stored timestamp `t`
satisfies `now - t < RATE_LIMIT_WINDOW` (the appended `now` included),
and no other client's list is modified. -/
theorem C10_rate_state_invariant (st : RateState) (c : String) (now : ℚ)
    (h : RateReachable st) :
    (((check_rate_limit st c now).2) c).length ≤ RATE_LIMIT_REQUESTS ∧
    (∀ t ∈ ((check_rate_limit st c now).2) c, now - t < RATE_LIMIT_WINDOW) ∧
    (∀ k, k ≠ c → ((check_rate_limit st c now).2) k = st k) := by
  refine ⟨rate_reachable_bound _ (RateReachable.step st c now h) c, ?_, ?_⟩
  · intro t ht
    unfold check_rate_limit at ht
    by_cases hge : RATE_LIMIT_REQUESTS ≤ (prune now (st c)).length
    · rw [if_pos hge] at ht
      have ht2 : t ∈ prune now (st c) := by simpa using ht
      have hd := List.of_mem_filter ht2
      exact of_decide_eq_true hd
    · rw [if_neg hge] at ht
      have ht2 : t ∈ prune now (st c) ++ [now] := by simpa using ht
      rcases List.mem_append.mp ht2 with hmem | hmem
      · have hd := List.of_mem_filter hmem
        exact of_decide_eq_true hd
      · have heq : t = now := by simpa using hmem
        rw [heq]
        simp only [sub_self, RATE_LIMIT_WINDOW]
        norm_num
  · intro k hk
    unfold check_rate_limit
    by_cases hge : RATE_LIMIT_REQUESTS ≤ (prune now (st c)).length
    · rw [if_pos hge]
      show (if k = c then prune now (st c) else st k) = st k
      rw [if_neg hk]
    · rw [if_neg hge]
      show (if k = c then prune now (st c) ++ [now] else st k) = st k
      rw [if_neg hk]

/-- Witness for C10: the initial state is reachable, and a first call on
it satisfies the invariant. -/
theorem C10_rate_state_invariant_witness :
    RateReachable emptyRate ∧
    ((((check_rate_limit emptyRate ("default") 0).2) ("default")).length ≤ RATE_LIMIT_REQUESTS ∧
      (∀ t ∈ ((check_rate_limit emptyRate ("default") 0).2) ("default"),
        (0 : ℚ) - t < RATE_LIMIT_WINDOW) ∧
      (∀ k, k ≠ "default" → ((check_rate_limit emptyRate ("default") 0).2) k = emptyRate k)) :=
  ⟨RateReachable.init,
    C10_rate_state_invariant emptyRate ("default") 0 RateReachable.init⟩

/-! ### Lemmas about the `ask` pipeline -/

theorem validate_ne_empty {llm : String} (h : validate_llm_name llm = true) :
    llm ≠ "" := by
  intro he
  subst he
  exact absurd h (by decide)

theorem ask_catch_error (e : PyExc) : ∃ m, ask_catch e = "Error: " ++ m := by
  cases e with
  | connectionError m => exact ⟨"Unable to connect to LLM service", rfl⟩
  | timeoutError m => exact ⟨"LLM request timed out", rfl⟩
  | valueError m => exact ⟨m, rfl⟩
  | llmConfigurationError m => exact ⟨m, rfl⟩
  | llmResponseError m => exact ⟨m, rfl⟩
  | indexError m => exact ⟨"Unexpected error occurred", rfl⟩
  | attributeError m => exact ⟨"Unexpected error occurred", rfl⟩
  | otherError m => exact ⟨"Unexpected error occurred", rfl⟩

theorem askBody_valid (cfgs : String → Option LLMConfig) (provider : Provider)
    (llm prompt : String)
    (hval : validate_llm_name llm = true) (hp : prompt ≠ "")
    (hlen : prompt.length ≤ MAX_PROMPT_LENGTH)
    (hsan : sanitize_prompt prompt ≠ "") :
    askBody cfgs provider llm prompt =
      match cfgs llm with
      | none =>
        (Except.error (PyExc.llmConfigurationError ("LLM \x27" ++ llm ++
          "\x27 not found in configuration. Check " ++ CONFIG_ENV_VAR ++
          " and specific LLM environment variables.")), [])
      | some cfg =>
        match provider cfg.model cfg.api_key ([("user", sanitize_prompt prompt)]) with
        | Except.error e =>
          (Except.error e, [(cfg.model, cfg.api_key, [("user", sanitize_prompt prompt)])])
        | Except.ok choices =>
          (extract_content choices, [(cfg.model, cfg.api_key, [("user", sanitize_prompt prompt)])]) := by
  unfold askBody
  rw [if_neg (validate_ne_empty hval), if_neg (by simp [hval]), if_neg hp,
    if_neg (not_lt.mpr hlen), if_neg hsan]

theorem askBody_ok (cfgs : String → Option LLMConfig) (provider : Provider)
    (llm prompt s : String)
    (h : (askBody cfgs provider llm prompt).1 = Except.ok s) :
    ∃ cfg rest, cfgs llm = some cfg ∧
      provider cfg.model cfg.api_key ([("user", sanitize_prompt prompt)]) =
        Except.ok (some s :: rest) ∧ s ≠ "" := by
  unfold askBody at h
  by_cases h1 : llm = ""
  · rw [if_pos h1] at h; simp at h
  rw [if_neg h1] at h
  by_cases h2 : validate_llm_name llm = false
  · rw [if_pos h2] at h; simp at h
  rw [if_neg h2] at h
  by_cases h3 : prompt = ""
  · rw [if_pos h3] at h; simp at h
  rw [if_neg h3] at h
  by_cases h4 : MAX_PROMPT_LENGTH < prompt.length
  · rw [if_pos h4] at h; simp at h
  rw [if_neg h4] at h
  by_cases h5 : sanitize_prompt prompt = ""
  · rw [if_pos h5] at h; simp at h
  rw [if_neg h5] at h
  cases hcfg : cfgs llm with
  | none => simp only [hcfg] at h; simp at h
  | some cfg =>
    simp only [hcfg] at h
    cases hprov : provider cfg.model cfg.api_key ([("user", sanitize_prompt prompt)]) with
    | error e => simp only [hprov] at h; simp at h
    | ok choices =>
      simp only [hprov] at h
      cases choices with
      | nil => simp [extract_content] at h
      | cons c rest =>
        cases c with
        | none => simp [extract_content] at h
        | some str =>
          by_cases hstr : str = ""
          · simp [extract_content, hstr] at h
          · simp only [extract_content, if_neg hstr] at h
            have hs : str = s := by
              have h6 : Except.ok (ε := PyExc) str = Except.ok s := h
              exact (Except.ok.injEq _ _).mp h6
            subst hs
            exact ⟨cfg, rest, rfl, hprov, hstr⟩

theorem ask_error_shape (cfgs : String → Option LLMConfig) (provider : Provider)
    (st : RateState) (now : ℚ) (llm prompt : String)
    (h : ∃ e, askBody cfgs provider llm prompt = (Except.error e, [])) :
    (∃ m, (ask cfgs provider st now llm prompt).1 = "Error: " ++ m) ∧
    (ask cfgs provider st now llm prompt).2.2 = [] := by
  unfold ask
  by_cases hrl : (check_rate_limit st ("default") now).1 = true
  · rw [if_pos hrl]
    obtain ⟨e, he⟩ := h
    simp only [he]
    exact ⟨ask_catch_error e, by simp⟩
  · rw [if_neg hrl]
    exact ⟨⟨"Rate limit exceeded. Please try again later.", rfl⟩, rfl⟩

/-- Claim C1: for every pair of string arguments, `ask` returns a string
(totality is by construction of the embedding, mirroring the `except`
clauses that catch every `Exception`), and the result is either an
`"Error: ..."` string covering every failure mode, or the non-empty
content string returned by the provider, passed through unchanged. -/
theorem C1_ask_always_string (cfgs : String → Option LLMConfig)
    (provider : Provider) (st : RateState) (now : ℚ) (llm prompt : String) :
    (∃ m, (ask cfgs provider st now llm prompt).1 = "Error: " ++ m) ∨
    (∃ cfg s rest, cfgs llm = some cfg ∧
      provider cfg.model cfg.api_key ([("user", sanitize_prompt prompt)]) =
        Except.ok (some s :: rest) ∧ s ≠ "" ∧
      (ask cfgs provider st now llm prompt).1 = s) := by
  unfold ask
  by_cases hrl : (check_rate_limit st ("default") now).1 = true
  · rw [if_pos hrl]
    cases hb : (askBody cfgs provider llm prompt).1 with
    | error e =>
      simp only [hb]
      exact Or.inl (ask_catch_error e)
    | ok s =>
      simp only [hb]
      obtain ⟨cfg, rest, hcfg, hprov, hs⟩ := askBody_ok cfgs provider llm prompt s hb
      exact Or.inr ⟨cfg, s, rest, hcfg, hprov, hs, rfl⟩
  · rw [if_neg hrl]
    exact Or.inl ⟨"Rate limit exceeded. Please try again later.", rfl⟩

/-- A registry holding one backend named `gpt`. -/
def cfgsGpt : String → Option LLMConfig :=
  fun k => if k = "gpt" then some (LLMConfig.mk ("m1") ("k1") ("gpt") none none) else none

/-- A provider that raises `ValueError("raw provider detail")`. -/
def providerValueError : Provider :=
  fun _ _ _ => Except.error (PyExc.valueError ("raw provider detail"))

/-- A provider that raises `TimeoutError("socket detail")`. -/
def providerTimeout : Provider :=
  fun _ _ _ => Except.error (PyExc.timeoutError ("socket detail"))

/-- Counterexample to claim C2 as stated: when the downstream call raises
`ValueError("raw provider detail")` (a malformed-parameter failure), the
first `except` clause of `ask` catches it before `handle_llm_error` can
map it, so the caller receives the raw internal exception text
`"Error: raw provider detail"` and not the fixed string
`"Error: Invalid request parameters"`. -/
theorem C2_counterexample :
    (ask cfgsGpt providerValueError emptyRate 0 ("gpt") ("hi")).1 =
      "Error: raw provider detail" ∧
    (ask cfgsGpt providerValueError emptyRate 0 ("gpt") ("hi")).1 ≠
      "Error: Invalid request parameters" := by
  refine ⟨by decide, by decide⟩

/-- Claim C2 as amended: for a call that reaches the downstream provider,
a connectivity failure yields exactly
`"Error: Unable to connect to LLM service"`, a timeout yields exactly
`"Error: LLM request timed out"`, never the underlying exception text,
and any unexpected failure (`IndexError`, `AttributeError` or any other
`Exception`) yields exactly `"Error: Unexpected error occurred"`; but a
`ValueError`, `LLMResponseError` or `LLMConfigurationError` raised by the
downstream call is caught by the first `except` clause and yields
`"Error: "` followed by the exception's own text, so raw provider-raised
`ValueError` text does reach the returned string (the
`"Error: Invalid request parameters"` translation in `handle_llm_error`
is unreachable for downstream failures). -/
theorem C2_amended_error_translation (cfgs : String → Option LLMConfig)
    (provider : Provider) (st : RateState) (now : ℚ) (llm prompt : String)
    (cfg : LLMConfig) (e : PyExc)
    (hadm : ¬ RATE_LIMIT_REQUESTS ≤ (prune now (st ("default"))).length)
    (hval : validate_llm_name llm = true)
    (hp : prompt ≠ "") (hlen : prompt.length ≤ MAX_PROMPT_LENGTH)
    (hsan : sanitize_prompt prompt ≠ "")
    (hcfg : cfgs llm = some cfg)
    (hprov : provider cfg.model cfg.api_key ([("user", sanitize_prompt prompt)]) =
      Except.error e) :
    (ask cfgs provider st now llm prompt).1 =
      match e with
      | PyExc.connectionError _ => "Error: Unable to connect to LLM service"
      | PyExc.timeoutError _ => "Error: LLM request timed out"
      | PyExc.valueError m => "Error: " ++ m
      | PyExc.llmConfigurationError m => "Error: " ++ m
      | PyExc.llmResponseError m => "Error: " ++ m
      | PyExc.indexError _ => "Error: Unexpected error occurred"
      | PyExc.attributeError _ => "Error: Unexpected error occurred"
      | PyExc.otherError _ => "Error: Unexpected error occurred" := by
  have hrl : (check_rate_limit st ("default") now).1 = true := by
    unfold check_rate_limit
    rw [if_neg hadm]
  have hb := askBody_valid cfgs provider llm prompt hval hp hlen hsan
  unfold ask
  rw [if_pos hrl]
  simp only [hb, hcfg, hprov]
  cases e <;> rfl

/-- Witness for the amended C2: in a registry with `gpt` configured, a
downstream timeout produces exactly the fixed timeout string. -/
theorem C2_amended_error_translation_witness :
    ((¬ RATE_LIMIT_REQUESTS ≤ (prune 0 (emptyRate ("default"))).length) ∧
      validate_llm_name ("gpt") = true ∧ ("hi" : String) ≠ "" ∧
      ("hi" : String).length ≤ MAX_PROMPT_LENGTH ∧
      sanitize_prompt ("hi") ≠ "" ∧
      cfgsGpt ("gpt") = some (LLMConfig.mk ("m1") ("k1") ("gpt") none none) ∧
      providerTimeout ("m1") ("k1") ([("user", sanitize_prompt ("hi"))]) =
        Except.error (PyExc.timeoutError ("socket detail"))) ∧
    (ask cfgsGpt providerTimeout emptyRate 0 ("gpt") ("hi")).1 =
      "Error: LLM request timed out" :=
  ⟨⟨by decide, by decide, by decide, by decide, by decide, by decide, rfl⟩,
    C2_amended_error_translation cfgsGpt providerTimeout emptyRate 0 ("gpt") ("hi")
      (LLMConfig.mk ("m1") ("k1") ("gpt") none none)
      (PyExc.timeoutError ("socket detail"))
      (by decide) (by decide) (by decide) (by decide) (by decide) (by decide) rfl⟩

/-- A registry whose single key is the string `gpt` followed by a
newline (such a key arises from an `ASKLLM_GPT_NAME` value with a
trailing newline). -/
def cfgsNewline : String → Option LLMConfig :=
  fun k => if k = "gpt\n" then some (LLMConfig.mk ("m1") ("k1") ("gpt\n") none none) else none

/-- A provider that returns the single content string `hello`. -/
def providerHello : Provider :=
  fun _ _ _ => Except.ok ([some ("hello")])

/-- Counterexample to claim C4 as stated: the backend name `"gpt\n"`
contains a newline, which is outside `[A-Za-z0-9_-]`, yet `ask` does not
reject it: Python's `re.match` with `$` accepts a single trailing
newline, so the call proceeds all the way to the downstream provider and
returns its content. -/
theorem C4_counterexample :
    ('\n' ∈ ("gpt\n").toList) ∧ isNameChar ('\n') = false ∧
    (ask cfgsNewline providerHello emptyRate 0 ("gpt\n") ("hi")).1 = "hello" ∧
    (ask cfgsNewline providerHello emptyRate 0 ("gpt\n") ("hi")).2.2 =
      [(("m1"), ("k1"), [(("user"), ("hi"))])] := by
  refine ⟨by decide, by decide, by decide, by decide⟩

/-- Claim C4 as amended: for every backend name that is empty or fails
Python's `re.match(r'^[a-zA-Z0-9_-]+$', ...)` — that is, every name other
than a nonempty string of allowed characters optionally followed by one
single trailing newline — `ask` returns an `"Error: ..."` string and no
downstream completion call is attempted.  (Names consisting of a valid
name plus exactly one trailing newline are accepted by the validator,
which is the only deviation from the claim as stated.) -/
theorem C4_amended_validation (cfgs : String → Option LLMConfig)
    (provider : Provider) (st : RateState) (now : ℚ) (llm prompt : String)
    (h1 : ¬(llm.toList ≠ [] ∧ llm.toList.all isNameChar = true))
    (h2 : ¬(llm.toList.getLast? = some ('\n') ∧ llm.toList.dropLast ≠ [] ∧
      llm.toList.dropLast.all isNameChar = true)) :
    (∃ m, (ask cfgs provider st now llm prompt).1 = "Error: " ++ m) ∧
    (ask cfgs provider st now llm prompt).2.2 = [] := by
  have hval : validate_llm_name llm = false := by
    cases hvt : validate_llm_name llm with
    | false => rfl
    | true =>
      exfalso
      unfold validate_llm_name at hvt
      simp only [Bool.or_eq_true, Bool.and_eq_true, decide_eq_true_eq] at hvt
      rcases hvt with ha | hb
      · exact h1 ⟨ha.1, ha.2⟩
      · exact h2 ⟨hb.1.1, hb.1.2, hb.2⟩
  apply ask_error_shape
  unfold askBody
  by_cases he : llm = ""
  · rw [if_pos he]
    exact ⟨_, rfl⟩
  · rw [if_neg he, if_pos hval]
    exact ⟨_, rfl⟩

/-- Witness for the amended C4: the name `"g t"` (embedded space) is
rejected with an error string and the provider is never invoked. -/
theorem C4_amended_validation_witness :
    ((¬(("g t").toList ≠ [] ∧ ("g t").toList.all isNameChar = true)) ∧
      (¬(("g t").toList.getLast? = some ('\n') ∧ ("g t").toList.dropLast ≠ [] ∧
        ("g t").toList.dropLast.all isNameChar = true))) ∧
    ((∃ m, (ask cfgsNewline providerHello emptyRate 0 ("g t") ("hi")).1 = "Error: " ++ m) ∧
      (ask cfgsNewline providerHello emptyRate 0 ("g t") ("hi")).2.2 = []) :=
  ⟨⟨by decide, by decide⟩,
    C4_amended_validation cfgsNewline providerHello emptyRate 0 ("g t") ("hi")
      (by decide) (by decide)⟩

/-- Claim C6: for a backend present in the registry and a prompt passing
validation (with the rate limiter admitting the call), `ask` invokes the
provider with exactly the configured model, the configured credential and
the sanitized prompt as the single `user` message, and returns the
provider's non-empty content string unchanged. -/
theorem C6_ask_success (cfgs : String → Option LLMConfig) (provider : Provider)
    (st : RateState) (now : ℚ) (llm prompt : String) (cfg : LLMConfig)
    (s : String) (rest : List (Option String))
    (hadm : ¬ RATE_LIMIT_REQUESTS ≤ (prune now (st ("default"))).length)
    (hval : validate_llm_name llm = true)
    (hp : prompt ≠ "") (hlen : prompt.length ≤ MAX_PROMPT_LENGTH)
    (hsan : sanitize_prompt prompt ≠ "")
    (hcfg : cfgs llm = some cfg)
    (hprov : provider cfg.model cfg.api_key ([("user", sanitize_prompt prompt)]) =
      Except.ok (some s :: rest))
    (hs : s ≠ "") :
    (ask cfgs provider st now llm prompt).1 = s ∧
    (ask cfgs provider st now llm prompt).2.2 =
      [(cfg.model, cfg.api_key, [("user", sanitize_prompt prompt)])] := by
  have hrl : (check_rate_limit st ("default") now).1 = true := by
    unfold check_rate_limit
    rw [if_neg hadm]
  have hb := askBody_valid cfgs provider llm prompt hval hp hlen hsan
  have hex : extract_content (some s :: rest) = Except.ok s := by
    show (if s = "" then Except.error (PyExc.llmResponseError ("Empty response content"))
      else Except.ok s) = Except.ok s
    rw [if_neg hs]
  unfold ask
  rw [if_pos hrl]
  simp only [hb, hcfg, hprov, hex]
  exact ⟨by trivial, by trivial⟩

/-- Witness for C6: `ask` on the `gpt` registry entry with prompt `hi`
calls the provider at the configured model and key with the single user
message `hi` and returns `hello` unchanged. -/
theorem C6_ask_success_witness :
    ((¬ RATE_LIMIT_REQUESTS ≤ (prune 0 (emptyRate ("default"))).length) ∧
      validate_llm_name ("gpt") = true ∧ ("hi" : String) ≠ "" ∧
      ("hi" : String).length ≤ MAX_PROMPT_LENGTH ∧
      sanitize_prompt ("hi") ≠ "" ∧
      cfgsGpt ("gpt") = some (LLMConfig.mk ("m1") ("k1") ("gpt") none none) ∧
      providerHello ("m1") ("k1") ([("user", sanitize_prompt ("hi"))]) =
        Except.ok (some ("hello") :: []) ∧ ("hello" : String) ≠ "") ∧
    ((ask cfgsGpt providerHello emptyRate 0 ("gpt") ("hi")).1 = "hello" ∧
      (ask cfgsGpt providerHello emptyRate 0 ("gpt") ("hi")).2.2 =
        [(("m1"), ("k1"), [(("user"), sanitize_prompt ("hi"))])]) :=
  ⟨⟨by decide, by decide, by decide, by decide, by decide, by decide, rfl, by decide⟩,
    C6_ask_success cfgsGpt providerHello emptyRate 0 ("gpt") ("hi")
      (LLMConfig.mk ("m1") ("k1") ("gpt") none none) ("hello") []
      (by decide) (by decide) (by decide) (by decide) (by decide) (by decide)
      rfl (by decide)⟩

/-- The empty registry. -/
def cfgsNone : String → Option LLMConfig := fun _ => none

/-- Claim C7: for a backend name that passes validation but is not a key
of the registry (with a prompt that passes validation and the rate
limiter admitting the call), `ask` returns the configuration error
string, which begins with `"Error:"` and mentions the `ASKLLM_CONFIG`
environment variable, and no downstream call is made. -/
theorem C7_unknown_backend (cfgs : String → Option LLMConfig)
    (provider : Provider) (st : RateState) (now : ℚ) (llm prompt : String)
    (hadm : ¬ RATE_LIMIT_REQUESTS ≤ (prune now (st ("default"))).length)
    (hval : validate_llm_name llm = true)
    (hp : prompt ≠ "") (hlen : prompt.length ≤ MAX_PROMPT_LENGTH)
    (hsan : sanitize_prompt prompt ≠ "")
    (hcfg : cfgs llm = none) :
    (ask cfgs provider st now llm prompt).1 =
      "Error: " ++ ("LLM \x27" ++ llm ++ "\x27 not found in configuration. Check " ++
        CONFIG_ENV_VAR ++ " and specific LLM environment variables.") ∧
    (∃ m, (ask cfgs provider st now llm prompt).1 = "Error: " ++ m) ∧
    (∃ a b, (ask cfgs provider st now llm prompt).1 = a ++ CONFIG_ENV_VAR ++ b) ∧
    (ask cfgs provider st now llm prompt).2.2 = [] := by
  have hrl : (check_rate_limit st ("default") now).1 = true := by
    unfold check_rate_limit
    rw [if_neg hadm]
  have hb := askBody_valid cfgs provider llm prompt hval hp hlen hsan
  unfold ask
  rw [if_pos hrl]
  simp only [hb, hcfg]
  refine ⟨rfl, ⟨_, rfl⟩,
    ⟨"Error: " ++ ("LLM \x27" ++ llm ++ "\x27 not found in configuration. Check "),
      " and specific LLM environment variables.", ?_⟩, by trivial⟩
  have hc : ask_catch (PyExc.llmConfigurationError ("LLM \x27" ++ llm ++
      "\x27 not found in configuration. Check " ++ CONFIG_ENV_VAR ++
      " and specific LLM environment variables.")) =
    "Error: " ++ ("LLM \x27" ++ llm ++ "\x27 not found in configuration. Check " ++
      CONFIG_ENV_VAR ++ " and specific LLM environment variables.") := rfl
  rw [hc]
  simp only [← String.append_assoc]

/-- Witness for C7: asking for the unconfigured backend `unknown`
against the empty registry yields the configuration error string, which
names `ASKLLM_CONFIG`, with no provider call. -/
theorem C7_unknown_backend_witness :
    ((¬ RATE_LIMIT_REQUESTS ≤ (prune 0 (emptyRate ("default"))).length) ∧
      validate_llm_name ("unknown") = true ∧ ("hi" : String) ≠ "" ∧
      ("hi" : String).length ≤ MAX_PROMPT_LENGTH ∧
      sanitize_prompt ("hi") ≠ "" ∧ cfgsNone ("unknown") = none) ∧
    ((ask cfgsNone providerHello emptyRate 0 ("unknown") ("hi")).1 =
      "Error: " ++ ("LLM \x27" ++ "unknown" ++ "\x27 not found in configuration. Check " ++
        CONFIG_ENV_VAR ++ " and specific LLM environment variables.") ∧
    (∃ m, (ask cfgsNone providerHello emptyRate 0 ("unknown") ("hi")).1 = "Error: " ++ m) ∧
    (∃ a b, (ask cfgsNone providerHello emptyRate 0 ("unknown") ("hi")).1 =
      a ++ CONFIG_ENV_VAR ++ b) ∧
    (ask cfgsNone providerHello emptyRate 0 ("unknown") ("hi")).2.2 = []) :=
  ⟨⟨by decide, by decide, by decide, by decide, by decide, rfl⟩,
    C7_unknown_backend cfgsNone providerHello emptyRate 0 ("unknown") ("hi")
      (by decide) (by decide) (by decide) (by decide) (by decide) rfl⟩

/-- Claim C9: for every prompt longer than `MAX_PROMPT_LENGTH`
characters, `ask` returns an `"Error: ..."` string regardless of the
prompt's content and of everything else (backend name, registry, rate
state), and no downstream completion call is attempted. -/
theorem C9_long_prompt_rejected (cfgs : String → Option LLMConfig)
    (provider : Provider) (st : RateState) (now : ℚ) (llm prompt : String)
    (h : MAX_PROMPT_LENGTH < prompt.length) :
    (∃ m, (ask cfgs provider st now llm prompt).1 = "Error: " ++ m) ∧
    (ask cfgs provider st now llm prompt).2.2 = [] := by
  apply ask_error_shape
  unfold askBody
  by_cases he : llm = ""
  · rw [if_pos he]
    exact ⟨_, rfl⟩
  rw [if_neg he]
  by_cases hv : validate_llm_name llm = false
  · rw [if_pos hv]
    exact ⟨_, rfl⟩
  rw [if_neg hv]
  have hp : prompt ≠ "" := by
    intro hpe
    rw [hpe] at h
    exact absurd h (by decide)
  rw [if_neg hp, if_pos h]
  exact ⟨_, rfl⟩

/-- Witness for C9: a 100001-character prompt is rejected with an error
string and no provider call, even with a configured backend. -/
theorem C9_long_prompt_rejected_witness :
    MAX_PROMPT_LENGTH < (String.mk (List.replicate 100001 ('a'))).length ∧
    ((∃ m, (ask cfgsGpt providerHello emptyRate 0 ("gpt")
        (String.mk (List.replicate 100001 ('a')))).1 = "Error: " ++ m) ∧
      (ask cfgsGpt providerHello emptyRate 0 ("gpt")
        (String.mk (List.replicate 100001 ('a')))).2.2 = []) := by
  have hlen : MAX_PROMPT_LENGTH < (String.mk (List.replicate 100001 ('a'))).length := by
    show MAX_PROMPT_LENGTH < (List.replicate 100001 ('a')).length
    rw [List.length_replicate]
    norm_num [MAX_PROMPT_LENGTH]
  exact ⟨hlen, C9_long_prompt_rejected cfgsGpt providerHello emptyRate 0 ("gpt")
    (String.mk (List.replicate 100001 ('a'))) hlen⟩

/-! ### Configuration loader lemmas -/

theorem truthy_some {o : Option String} (h : truthy o = true) :
    ∃ s, o = some s ∧ s ≠ "" := by
  cases o with
  | none => simp [truthy] at h
  | some s => exact ⟨s, rfl, by simpa [truthy] using h⟩

/-- A registry entry under key `k` originating from the configuration
piece `piece`: the normalised backend key is nonempty, the model variable
and the resolved api key produced exactly the stored (nonempty) fields,
and the entry sits under the backend's display name. -/
def storedFrom (env : Env) (secure : Secure) (piece k : String)
    (cfg : LLMConfig) : Prop :=
  backendName piece ≠ "" ∧
  env (modelVar (backendName piece)) = some cfg.model ∧
  resolvedKey env secure (backendName piece) = some cfg.api_key ∧
  cfg.model ≠ "" ∧ cfg.api_key ≠ "" ∧
  cfg.name = displayOf env (backendName piece) ∧
  k = displayOf env (backendName piece)

theorem loadStep_lookup (env : Env) (secure : Secure)
    (acc : String → Option LLMConfig) (piece k : String) (cfg : LLMConfig)
    (h : loadStep env secure acc piece k = some cfg) :
    acc k = some cfg ∨ storedFrom env secure piece k cfg := by
  unfold loadStep at h
  by_cases hn : backendName piece = ""
  · rw [if_pos hn] at h
    exact Or.inl h
  rw [if_neg hn] at h
  cases hm : env (modelVar (backendName piece)) with
  | none =>
    simp only [hm] at h
    exact Or.inl h
  | some m =>
    cases hk : resolvedKey env secure (backendName piece) with
    | none =>
      simp only [hm, hk] at h
      exact Or.inl h
    | some key =>
      simp only [hm, hk] at h
      by_cases hz : m = "" ∨ key = ""
      · rw [if_pos hz] at h
        exact Or.inl h
      · rw [if_neg hz] at h
        push_neg at hz
        by_cases hq : k = displayOf env (backendName piece)
        · rw [if_pos hq] at h
          have hcfg : LLMConfig.mk m key (displayOf env (backendName piece)) none none = cfg :=
            Option.some.inj h
          refine Or.inr ⟨hn, ?_, ?_, ?_, ?_, ?_, hq⟩
          · rw [← hcfg]; exact hm
          · rw [← hcfg]; exact hk
          · rw [← hcfg]; exact hz.1
          · rw [← hcfg]; exact hz.2
          · rw [← hcfg]
        · rw [if_neg hq] at h
          exact Or.inl h

theorem foldl_lookup (env : Env) (secure : Secure) :
    ∀ (l : List String) (acc : String → Option LLMConfig) (k : String) (cfg : LLMConfig),
      (l.foldl (loadStep env secure) acc) k = some cfg →
      acc k = some cfg ∨ ∃ piece ∈ l, storedFrom env secure piece k cfg := by
  intro l
  induction l with
  | nil =>
    intro acc k cfg h
    exact Or.inl h
  | cons p l ih =>
    intro acc k cfg h
    rw [List.foldl_cons] at h
    rcases ih (loadStep env secure acc p) k cfg h with h1 | ⟨piece, hp, hq⟩
    · rcases loadStep_lookup env secure acc p k cfg h1 with h2 | h2
      · exact Or.inl h2
      · exact Or.inr ⟨p, by simp, h2⟩
    · exact Or.inr ⟨piece, by simp [hp], hq⟩

theorem loadStep_preserves (env : Env) (secure : Secure)
    (acc : String → Option LLMConfig) (piece k : String)
    (h : acc k ≠ none) : loadStep env secure acc piece k ≠ none := by
  unfold loadStep
  by_cases hn : backendName piece = ""
  · rw [if_pos hn]
    exact h
  rw [if_neg hn]
  cases hm : env (modelVar (backendName piece)) with
  | none => exact h
  | some m =>
    cases hk : resolvedKey env secure (backendName piece) with
    | none => exact h
    | some key =>
      show (if m = "" ∨ key = "" then acc else fun q =>
        if q = displayOf env (backendName piece) then
          some (LLMConfig.mk m key (displayOf env (backendName piece)) none none)
        else acc q) k ≠ none
      by_cases hz : m = "" ∨ key = ""
      · rw [if_pos hz]
        exact h
      · rw [if_neg hz]
        show (if k = displayOf env (backendName piece) then
          some (LLMConfig.mk m key (displayOf env (backendName piece)) none none)
          else acc k) ≠ none
        by_cases hq : k = displayOf env (backendName piece)
        · rw [if_pos hq]
          simp
        · rw [if_neg hq]
          exact h

theorem foldl_preserves (env : Env) (secure : Secure) :
    ∀ (l : List String) (acc : String → Option LLMConfig) (k : String),
      acc k ≠ none → (l.foldl (loadStep env secure) acc) k ≠ none := by
  intro l
  induction l with
  | nil =>
    intro acc k h
    exact h
  | cons p l ih =>
    intro acc k h
    rw [List.foldl_cons]
    exact ih _ k (loadStep_preserves env secure acc p k h)

theorem loadStep_stores (env : Env) (secure : Secure)
    (acc : String → Option LLMConfig) (piece : String)
    (hn : backendName piece ≠ "")
    (hm : truthy (env (modelVar (backendName piece))) = true)
    (hk : truthy (resolvedKey env secure (backendName piece)) = true) :
    loadStep env secure acc piece (displayOf env (backendName piece)) ≠ none := by
  obtain ⟨m, hm1, hm2⟩ := truthy_some hm
  obtain ⟨key, hk1, hk2⟩ := truthy_some hk
  unfold loadStep
  rw [if_neg hn]
  simp only [hm1, hk1]
  rw [if_neg (by simp [hm2, hk2])]
  simp

theorem foldl_mem_present (env : Env) (secure : Secure) :
    ∀ (l : List String) (acc : String → Option LLMConfig) (piece : String),
      piece ∈ l →
      backendName piece ≠ "" →
      truthy (env (modelVar (backendName piece))) = true →
      truthy (resolvedKey env secure (backendName piece)) = true →
      (l.foldl (loadStep env secure) acc) (displayOf env (backendName piece)) ≠ none := by
  intro l
  induction l with
  | nil =>
    intro acc piece hp
    simp at hp
  | cons q l ih =>
    intro acc piece hp hn hm hk
    rw [List.foldl_cons]
    rcases List.mem_cons.mp hp with he | ht
    · subst he
      exact foldl_preserves env secure l _ _ (loadStep_stores env secure acc piece hn hm hk)
    · exact ih _ piece ht hn hm hk

/-- Claim C8: a profile is present in the registry under a key only if it
was stored from a configuration piece whose model variable and resolved
credential are exactly the stored nonempty fields (so no null or
defaulted entries exist); and conversely every comma-separated
configuration piece with a nonempty normalised key, a truthy model
variable and a truthy resolved credential has a registry entry under its
display name. -/
theorem C8_registry_iff_resolved (env : Env) (secure : Secure) :
    (∀ k cfg, load_llm_configurations env secure k = some cfg →
      cfg.model ≠ "" ∧ cfg.api_key ≠ "" ∧
      ∃ piece ∈ configPieces env, storedFrom env secure piece k cfg) ∧
    (∀ piece ∈ configPieces env,
      backendName piece ≠ "" →
      truthy (env (modelVar (backendName piece))) = true →
      truthy (resolvedKey env secure (backendName piece)) = true →
      load_llm_configurations env secure (displayOf env (backendName piece)) ≠ none) := by
  constructor
  · intro k cfg h
    unfold load_llm_configurations at h
    by_cases hc : ((env CONFIG_ENV_VAR).getD ("")) = ""
    · rw [if_pos hc] at h
      simp at h
    · rw [if_neg hc] at h
      rcases foldl_lookup env secure (configPieces env) _ k cfg h with h1 | ⟨piece, hp, hq⟩
      · simp at h1
      · exact ⟨hq.2.2.2.1, hq.2.2.2.2.1, piece, hp, hq⟩
  · intro piece hp hn hm hk
    unfold load_llm_configurations
    by_cases hc : ((env CONFIG_ENV_VAR).getD ("")) = ""
    · exfalso
      unfold configPieces at hp
      rw [hc] at hp
      have hsplit : pySplit ("") (',') = [""] := by decide
      rw [hsplit] at hp
      have hpe : piece = "" := by simpa using hp
      rw [hpe] at hn
      exact hn (by decide)
    · rw [if_neg hc]
      exact foldl_mem_present env secure (configPieces env) _ piece hp hn hm hk

/-- An environment configuring a single backend `gpt` through the
fallback `ASKLLM_GPT_APIKEY` variable. -/
def envC8 : Env := fun v =>
  if v = "ASKLLM_CONFIG" then some ("gpt")
  else if v = "ASKLLM_GPT_MODEL" then some ("gpt-4")
  else if v = "ASKLLM_GPT_APIKEY" then some ("sk-test") else none

/-- A secure store with no keys (keyring unavailable or empty). -/
def secureC8 : Secure := fun _ _ => none

/-- Witness for C8: in `envC8` the piece `gpt` resolves both fields, and
the loaded registry has an entry under its display name `gpt`. -/
theorem C8_registry_iff_resolved_witness :
    (("gpt" : String) ∈ configPieces envC8 ∧
      backendName ("gpt") ≠ "" ∧
      truthy (envC8 (modelVar (backendName ("gpt")))) = true ∧
      truthy (resolvedKey envC8 secureC8 (backendName ("gpt"))) = true) ∧
    load_llm_configurations envC8 secureC8 (displayOf envC8 (backendName ("gpt"))) ≠ none :=
  ⟨⟨by decide, by decide, by decide, by decide⟩,
    (C8_registry_iff_resolved envC8 secureC8).2 ("gpt") (by decide) (by decide)
      (by decide) (by decide)⟩

end AskLLM
